import Mathlib

/-!
Verification of the paginated API ingestion and JSON flattening pipeline of
the OSAA SMU data dashboards (`sdg_dashboard.py`, `acled_dashboard.py`).

The embedding models:
  * JSON values (`JVal`) as they appear in decoded API payloads;
  * the per-record flattening loop of `sdg_dashboard.py` lines 182-228
    (`flattenEntry`, with the per-field rule in `flattenField`);
  * the pagination loop of lines 165-239 (`walkGo` / `walk`), where the
    outcome of one `get_data` call is a `FetchResult`;
  * the DataFrame construction and schema reconciliation of lines 239-321
    (`dfFromRecords`, `detectCountryColumn`, `mergeIso`, `postProcess`,
    `reconcile`);
  * the query-parameter serialization of `sdg_dashboard.py` lines 148-152
    (`data_url`) and `acled_dashboard.py` lines 186-222 (`acledParameters`).

`json.loads` (the Python standard library JSON parser used inside the
flattener) is external to the repository, so the flattener is parameterized
by a function `parse : String -> Option (List (String × JVal))` returning
`some fields` exactly when the parser succeeds AND yields an object
(`.items()` on a non-dict raises, which the bare `except:` turns into the
same fallback as a parse failure).
-/

/-- A decoded JSON value, as produced by `response.json()` / `json.loads`. -/
inductive JVal where
  | null : JVal
  | str (s : String) : JVal
  | num (n : Int) : JVal
  | obj (fields : List (String × JVal)) : JVal
  | arr (elems : List JVal) : JVal

/-- One raw API record: a JSON object, i.e. a finite key-value mapping.
Python dicts have unique keys; association-list lookup takes the first
occurrence, which agrees on such inputs. -/
abbrev Entry : Type := List (String × JVal)

/-- `entry.get("indicator")` handling, `sdg_dashboard.py` lines 187-190:
if the value is a nonempty list take element 0, otherwise take
`entry.get("indicator", "")` (the value itself, or `""` when absent). -/
def indicatorValue (entry : Entry) : JVal :=
  match List.lookup "indicator" entry with
  | some (.arr (v :: _)) => v
  | some v => v
  | none => .str ""

/-- Contribution of one non-`indicator` field `(key, value)` to `row_data`,
`sdg_dashboard.py` lines 193-226.  `dimensions` and `attributes` values that
are strings are run through `json.loads` (modelled by `parse`); on success
the inner keys become `dimension_k` / `attribute_k` columns, on failure the
raw string is copied through (`except: row_data[key] = value`).  Dict values
are expanded directly; every other value, and every other key, is copied
through unchanged. -/
def flattenField (parse : String → Option (List (String × JVal)))
    (key : String) (value : JVal) : List (String × JVal) :=
  if key = "dimensions" then
    match value with
    | .str s =>
      match parse s with
      | some d => d.map (fun p => ("dimension_" ++ p.1, p.2))
      | none => [(key, value)]
    | .obj d => d.map (fun p => ("dimension_" ++ p.1, p.2))
    | _ => [(key, value)]
  else if key = "attributes" then
    match value with
    | .str s =>
      match parse s with
      | some a => a.map (fun p => ("attribute_" ++ p.1, p.2))
      | none => [(key, value)]
    | .obj a => a.map (fun p => ("attribute_" ++ p.1, p.2))
    | _ => [(key, value)]
  else [(key, value)]

/-- The whole per-record flattening loop, `sdg_dashboard.py` lines 182-228:
`row_data` starts with the `Indicator` column, then every field of the
record other than `indicator` contributes via `flattenField`, in record
order. -/
def flattenEntry (parse : String → Option (List (String × JVal)))
    (entry : Entry) : Entry :=
  ("Indicator", indicatorValue entry) ::
    (entry.filter (fun p => p.1 != "indicator")).flatMap
      (fun p => flattenField parse p.1 p.2)

/-- `page_size = 1000`, `sdg_dashboard.py` line 151. -/
def page_size : Nat := 1000

/-- Outcome of one `get_data` call (`sdg_dashboard.py` lines 8-31) as seen
by the pagination loop: either the decoded payload's `data` list
(`data.get('data', [])`, empty when the key is missing), or an `Exception`
sentinel carrying a message. -/
inductive FetchResult where
  | ok (records : List Entry) : FetchResult
  | err (msg : String) : FetchResult

/-- The records of a page, `[]` on a failed fetch (used only to describe
results; the walker never reads records of a failed page). -/
def recsAt (fetch : Nat → FetchResult) (page : Nat) : List Entry :=
  match fetch page with
  | .ok recs => recs
  | .err _ => []

/-- State at the end of the `get data` button handler's loop:
`extracted_data`, the error surfaced via `st.error` (if any), and how many
page requests were issued. -/
structure WalkResult where
  rows : List Entry
  error : Option String
  pagesFetched : Nat

/-- The pagination loop body, `sdg_dashboard.py` lines 170-237, with `fuel`
the number of remaining iterations of `range(1, max_pages + 1)`:
  * a failed fetch reports the error and breaks (lines 235-237);
  * an empty (or missing) `data` list breaks (lines 176-177);
  * otherwise the records are flattened and appended (lines 179-228; the
    `len(data['data']) < 1` branch of line 179 is kept, though it is
    unreachable after the emptiness break);
  * a short page (fewer than `page_size` records) breaks after processing
    (lines 231-233); a full page continues to the next page number. -/
def walkGo (fetch : Nat → FetchResult)
    (parse : String → Option (List (String × JVal))) :
    Nat → Nat → List Entry → Nat → WalkResult
  | 0, _, acc, fetched => ⟨acc, none, fetched⟩
  | fuel + 1, page, acc, fetched =>
    match fetch page with
    | .err e => ⟨acc, some e, fetched + 1⟩
    | .ok recs =>
      if recs.isEmpty then ⟨acc, none, fetched + 1⟩
      else
        let acc' := if recs.length < 1 then acc
          else acc ++ recs.map (flattenEntry parse)
        if recs.length < page_size then ⟨acc', none, fetched + 1⟩
        else walkGo fetch parse fuel (page + 1) acc' (fetched + 1)

/-- The whole pagination run: `for page_num in range(1, max_pages + 1)`
starting from page 1 with an empty accumulator. -/
def walk (fetch : Nat → FetchResult)
    (parse : String → Option (List (String × JVal))) (maxPages : Nat) :
    WalkResult :=
  walkGo fetch parse maxPages 1 [] 0

/-- Column set of `pd.DataFrame(list_of_dicts)`: the union of the keys of
all rows, in first-appearance order. -/
def addKeys (acc : List String) (r : Entry) : List String :=
  r.foldl (fun cs p => if cs.contains p.1 then cs else cs ++ [p.1]) acc

/-- Union of all keys across rows, first-appearance order. -/
def unionKeys (rs : List Entry) : List String := rs.foldl addKeys []

/-- A DataFrame: a column list plus one association list per row (a missing
key is a NaN cell). -/
structure DataFrame where
  cols : List String
  rows : List Entry

/-- `df = pd.DataFrame(extracted_data)`, `sdg_dashboard.py` line 239. -/
def dfFromRecords (rs : List Entry) : DataFrame := ⟨unionKeys rs, rs⟩

/-- Pagination run followed by DataFrame construction (lines 165-239): the
accumulated rows are handed to `pd.DataFrame`, and the error (if any) was
surfaced via `st.error`. -/
def sdgPipeline (fetch : Nat → FetchResult)
    (parse : String → Option (List (String × JVal))) (maxPages : Nat) :
    DataFrame × Option String :=
  (dfFromRecords (walk fetch parse maxPages).rows, (walk fetch parse maxPages).error)

/-- One row of `content/iso3_country_reference.csv`, restricted to the
columns selected for the merge at `sdg_dashboard.py` line 256; `m49` has
been cast to string (`astype(str)`, line 36). -/
structure RefRow where
  countryOrArea : String
  regionName : String
  subRegionName : String
  intermediateRegionName : String
  iso2 : String
  iso3 : String
  m49 : String

/-- `possible_country_columns`, `sdg_dashboard.py` line 247. -/
def possible_country_columns : List String :=
  ["m49", "geoAreaCode", "areaCode", "countryCode"]

/-- The detection loop of lines 249-252: the first candidate name that is a
column of the DataFrame, if any. -/
def detectCountryColumn (cols : List String) : Option String :=
  possible_country_columns.find? (fun c => cols.contains c)

/-- Columns the left join appends from the reference table (line 256).
When the join key is itself `m49`, pandas keeps the single shared `m49`
column instead of duplicating it. -/
def refCols (c : String) (t : RefRow) : List (String × JVal) :=
  [("Country or Area", .str t.countryOrArea),
   ("Region Name", .str t.regionName),
   ("Sub-region Name", .str t.subRegionName),
   ("Intermediate Region Name", .str t.intermediateRegionName),
   ("iso2", .str t.iso2), ("iso3", .str t.iso3)] ++
    (if c = "m49" then [] else [("m49", .str t.m49)])

/-- The same appended columns, all null: what an unmatched left row gets
from a `how='left'` merge. -/
def nullRefCols (c : String) : List (String × JVal) :=
  [("Country or Area", .null), ("Region Name", .null),
   ("Sub-region Name", .null), ("Intermediate Region Name", .null),
   ("iso2", .null), ("iso3", .null)] ++
    (if c = "m49" then [] else [("m49", .null)])

/-- Names of the columns appended by the merge. -/
def refColNames (c : String) : List String :=
  ["Country or Area", "Region Name", "Sub-region Name",
   "Intermediate Region Name", "iso2", "iso3"] ++
    (if c = "m49" then [] else ["m49"])

/-- Join-key comparison: the left cell equals a reference `m49` entry
exactly when it is the same string (the reference side is `astype(str)`;
a non-string or missing cell matches nothing). -/
def codeMatches (v : Option JVal) (m : String) : Bool :=
  match v with
  | some (.str s) => s == m
  | _ => false

/-- `df.merge(iso3_reference_df[...], left_on=c, right_on='m49',
how='left')`, `sdg_dashboard.py` line 256: every left row is kept once per
matching reference row, or once with null geographic fields when nothing
matches. -/
def mergeIso (df : DataFrame) (ref : List RefRow) (c : String) : DataFrame :=
  ⟨df.cols ++ refColNames c,
    df.rows.flatMap (fun r =>
      let ms := ref.filter (fun t => codeMatches (List.lookup c r) t.m49)
      if ms.isEmpty then [r ++ nullRefCols c]
      else ms.map (fun t => r ++ refCols c t))⟩

/-- `pd.to_numeric(x, errors='coerce')` on one cell, over the integral
numbers of the model: numbers pass through, numeric strings are parsed,
anything else becomes null (NaN). -/
def toNumeric (v : JVal) : JVal :=
  match v with
  | .num n => .num n
  | .str s =>
    match s.toInt? with
    | some n => .num n
    | none => .null
  | _ => .null

/-- Coercion of one column if present (`sdg_dashboard.py` lines 261-264). -/
def coerceColumn (name : String) (df : DataFrame) : DataFrame :=
  if df.cols.contains name then
    ⟨df.cols, df.rows.map (fun r =>
      r.map (fun p => if p.1 = name then (p.1, toNumeric p.2) else p))⟩
  else df

/-- `column_mapping`, lines 266-273: a `dimension_x` column is renamed to
`Breakdown by x` (`col.replace('dimension_', '')`); others are kept. -/
def renameCol (c : String) : String :=
  if c.startsWith "dimension_" then "Breakdown by " ++ (c.replace "dimension_" "")
  else c

/-- `df.rename(columns=column_mapping)`: column names and row keys follow. -/
def renameDims (df : DataFrame) : DataFrame :=
  ⟨df.cols.map renameCol,
    df.rows.map (fun r => r.map (fun p => (renameCol p.1, p.2)))⟩

/-- Python `sorted` over strings (lexicographic). -/
def sortStrings (l : List String) : List String :=
  l.mergeSort (fun a b => decide (a ≤ b))

/-- `unwanted_columns`, lines 311-315. -/
def unwanted_columns : List String :=
  ["attribute_Nature", "source", "target", "timeCoverage", "time_detail",
   "upperBound", "lowerBound", "footnotes", "seriesCount", "geoInfoUrl",
   "basePeriod", "valueType"]

/-- `priority_columns`, lines 276-318: code columns, region columns,
country, sorted breakdown columns, series description, time period, value,
then the sorted remaining columns minus the deny-list. -/
def reorderCols (cols : List String) : List String :=
  let pc :=
    (if cols.contains "m49" then ["m49"] else []) ++
    (if cols.contains "iso3" then ["iso3"] else []) ++
    (if cols.contains "Region Name" then ["Region Name"] else []) ++
    (if cols.contains "Sub-region Name" then ["Sub-region Name"] else []) ++
    (if cols.contains "Intermediate Region Name"
      then ["Intermediate Region Name"] else []) ++
    (if cols.contains "Country or Area" then ["Country or Area"] else []) ++
    sortStrings (cols.filter (fun c => c.startsWith "Breakdown by")) ++
    (if cols.contains "seriesDescription" then ["seriesDescription"] else []) ++
    (if cols.contains "timePeriodStart" then ["timePeriodStart"] else []) ++
    (if cols.contains "value" then ["value"] else [])
  pc ++ sortStrings (cols.filter (fun c =>
    !pc.contains c && !unwanted_columns.contains c))

/-- `df = df[priority_columns]`, line 321: keep the selected columns in
order; each row is projected onto them. -/
def selectCols (cols : List String) (r : Entry) : Entry :=
  cols.filterMap (fun c => (List.lookup c r).map (fun v => (c, v)))

/-- The post-join pipeline tail, lines 260-321: numeric coercion of
`Value`/`Year`, renaming of `dimension_*` columns, and the deterministic
reordering (with deny-list exclusion). -/
def postProcess (df : DataFrame) : DataFrame :=
  let d1 := coerceColumn "Value" df
  let d2 := coerceColumn "Year" d1
  let d3 := renameDims d2
  let cols := reorderCols d3.cols
  ⟨cols, d3.rows.map (selectCols cols)⟩

/-- Lines 245-321 as one function on a non-empty DataFrame: detect the
country-code column; if found, left-join the reference table on it, else
report a non-fatal warning (`st.warning`, line 258) and skip the join; in
both cases run the rest of the pipeline.  The Bool records whether the
warning was issued. -/
def reconcile (ref : List RefRow) (df : DataFrame) : DataFrame × Bool :=
  match detectCountryColumn df.cols with
  | some c => (postProcess (mergeIso df ref c), false)
  | none => (postProcess df, true)

/-- `BASE_URL`, `sdg_dashboard.py` line 44. -/
def BASE_URL : String := "https://unstats.un.org/sdgs/UNSDGAPIV5"

/-- `indicator_params`, `sdg_dashboard.py` line 148. -/
def indicator_params (codes : List String) : String :=
  "indicator=" ++ String.intercalate "&indicator=" codes

/-- `country_params`, `sdg_dashboard.py` line 149. -/
def country_params (codes : List String) : String :=
  "&areaCode=" ++ String.intercalate "&areaCode=" codes

/-- `year_params`, `sdg_dashboard.py` line 150:
`range(selected_years[0], selected_years[1] + 1)` rendered as strings. -/
def year_params (lo hi : Nat) : String :=
  "&timePeriod=" ++ String.intercalate "&timePeriod="
    ((List.range' lo (hi + 1 - lo)).map toString)

/-- `data_url`, `sdg_dashboard.py` line 152. -/
def data_url (indicators countries : List String) (lo hi : Nat) : String :=
  BASE_URL ++ "/v1/sdg/Indicator/Data?" ++ indicator_params indicators ++
    country_params countries ++ year_params lo hi ++
    "&pageSize=" ++ toString page_size

/-- An ACLED query-parameter value: Python writes both strings and ints
into the `parameters` dict. -/
inductive PVal where
  | str (s : String) : PVal
  | nat (n : Nat) : PVal

/-- The `parameters` dict of `acled_dashboard.py` lines 186-222, in
insertion order: `_format`, then `country` / `region` / `sub_event_type`
(each only when the selection is non-empty, values `"|"`-joined in
selection order), then the year fields (single year, or
`year`/`year_where`/`year_end` for a range), then `limit` only when
`num_rows > 0`. -/
def acledParameters (selectedCountries selectedRegions selectedSubEvents :
    List String) (yearLo yearHi : Nat) (numRows : Nat) : List (String × PVal) :=
  [("_format", .str "json")] ++
  (if selectedCountries.isEmpty then []
    else [("country", .str (String.intercalate "|" selectedCountries))]) ++
  (if selectedRegions.isEmpty then []
    else [("region", .str (String.intercalate "|" selectedRegions))]) ++
  (if selectedSubEvents.isEmpty then []
    else [("sub_event_type", .str (String.intercalate "|" selectedSubEvents))]) ++
  (if yearLo = yearHi then [("year", .nat yearLo)]
    else [("year", .nat yearLo), ("year_where", .str ">="),
      ("year_end", .nat yearHi)]) ++
  (if numRows > 0 then [("limit", .nat numRows)] else [])

/-- A field whose key is not `dimensions`/`attributes`, or whose value is
neither a dict nor a string that parses as a JSON object, is copied through
unchanged by the flattening loop. -/
lemma flattenField_copy (parse : String → Option (List (String × JVal)))
    (k : String) (v : JVal)
    (h : k = "dimensions" ∨ k = "attributes" →
      (∀ d, v ≠ .obj d) ∧ (∀ s, v = .str s → parse s = none)) :
    flattenField parse k v = [(k, v)] := by
  unfold flattenField
  by_cases hd : k = "dimensions"
  · subst hd
    rw [if_pos rfl]
    obtain ⟨hobj, hstr⟩ := h (Or.inl rfl)
    cases v with
    | str s => simp only [hstr s rfl]
    | obj d => exact absurd rfl (hobj d)
    | null => rfl
    | num n => rfl
    | arr a => rfl
  · rw [if_neg hd]
    by_cases ha : k = "attributes"
    · subst ha
      rw [if_pos rfl]
      obtain ⟨hobj, hstr⟩ := h (Or.inr rfl)
      cases v with
      | str s => simp only [hstr s rfl]
      | obj d => exact absurd rfl (hobj d)
      | null => rfl
      | num n => rfl
      | arr a => rfl
    · rw [if_neg ha]

/-- Over a list of fields each of which is copied through, the flattening
loop body is the identity. -/
lemma flatMap_flattenField_self (parse : String → Option (List (String × JVal))) :
    ∀ l : Entry,
      (∀ p ∈ l, p.1 = "dimensions" ∨ p.1 = "attributes" →
        (∀ d, p.2 ≠ .obj d) ∧ (∀ s, p.2 = .str s → parse s = none)) →
      l.flatMap (fun p => flattenField parse p.1 p.2) = l
  | [], _ => rfl
  | p :: t, h => by
    rw [List.flatMap_cons,
      flattenField_copy parse p.1 p.2 (h p (List.mem_cons_self p t)),
      flatMap_flattenField_self parse t (fun q hq => h q (List.mem_cons_of_mem p hq))]
    rfl

/-- Stepping lemma: across `k` consecutive full pages the walker neither
stops nor drops rows — it advances the page counter, appends the flattened
records of those pages in order, and counts `k` fetches. -/
lemma walkGo_full_steps (fetch : Nat → FetchResult)
    (parse : String → Option (List (String × JVal))) :
    ∀ (k fuel page fetched : Nat) (acc : List Entry),
      (∀ i, i < k → ∃ recs, fetch (page + i) = .ok recs ∧ recs.length = page_size) →
      walkGo fetch parse (k + fuel) page acc fetched =
        walkGo fetch parse fuel (page + k)
          (acc ++ ((List.range' page k).flatMap (recsAt fetch)).map (flattenEntry parse))
          (fetched + k) := by
  intro k
  induction k with
  | zero =>
    intro fuel page fetched acc _
    simp
  | succ k ih =>
    intro fuel page fetched acc h
    obtain ⟨recs, hfetch, hlen⟩ := h 0 (Nat.succ_pos k)
    rw [Nat.add_zero] at hfetch
    have hne : recs.isEmpty = false := by
      rw [List.isEmpty_eq_false_iff_exists_mem]
      cases recs with
      | nil => simp [page_size] at hlen
      | cons r t => exact ⟨r, List.mem_cons_self r t⟩
    have hstep :
        walkGo fetch parse (k + 1 + fuel) page acc fetched =
          walkGo fetch parse (k + fuel) (page + 1)
            (acc ++ recs.map (flattenEntry parse)) (fetched + 1) := by
      have harith : k + 1 + fuel = (k + fuel) + 1 := by omega
      rw [harith, walkGo, hfetch]
      simp only [hne, Bool.false_eq_true, if_false, hlen, page_size]
      norm_num
    rw [hstep, ih fuel (page + 1) (fetched + 1) (acc ++ recs.map (flattenEntry parse))
      (fun i hi => by
        have := h (i + 1) (by omega)
        rwa [show page + (i + 1) = page + 1 + i by omega] at this)]
    rw [List.range'_succ, List.flatMap_cons, show recsAt fetch page = recs by
      simp [recsAt, hfetch]]
    rw [List.map_append, ← List.append_assoc]
    have h1 : page + 1 + k = page + (k + 1) := by omega
    have h2 : fetched + 1 + k = fetched + (k + 1) := by omega
    rw [h1, h2]

/-- C1: short-page termination.  In a pagination run with page size 1000,
if pages `1..p-1` are full and page `p` returns a non-zero number of
records strictly fewer than `page_size`, the walker flattens and keeps the
records of pages `1..p` and stops at page `p`: exactly `p` requests are
issued and no error is reported, for every `max_pages ≥ p`. -/
theorem short_page_terminates (fetch : Nat → FetchResult)
    (parse : String → Option (List (String × JVal))) (maxPages p : Nat)
    (hp : 1 ≤ p) (hple : p ≤ maxPages)
    (hfull : ∀ q, 1 ≤ q → q < p →
      ∃ recs, fetch q = .ok recs ∧ recs.length = page_size)
    (hshort : ∃ recs, fetch p = .ok recs ∧
      0 < recs.length ∧ recs.length < page_size) :
    walk fetch parse maxPages =
      ⟨((List.range' 1 p).flatMap (recsAt fetch)).map (flattenEntry parse),
        none, p⟩ := by
  obtain ⟨recs, hfp, hpos, hshort⟩ := hshort
  unfold walk
  have hsplit : maxPages = (p - 1) + ((maxPages - p) + 1) := by omega
  rw [hsplit, walkGo_full_steps fetch parse (p - 1) ((maxPages - p) + 1) 1 0 []
    (fun i hi => by
      have := hfull (1 + i) (by omega) (by omega)
      exact this)]
  have hpk : 1 + (p - 1) = p := by omega
  rw [hpk, walkGo, hfp]
  have hne : recs.isEmpty = false := by
    rw [List.isEmpty_eq_false_iff_exists_mem]
    cases recs with
    | nil => simp at hpos
    | cons r t => exact ⟨r, List.mem_cons_self r t⟩
  simp only [hne, Bool.false_eq_true, if_false, if_pos hshort,
    if_neg (by omega : ¬ recs.length < 1)]
  have hlast : List.range' 1 p = List.range' 1 (p - 1) ++ [1 + (p - 1)] := by
    rw [← List.range'_1_concat]
    congr 1
    omega
  rw [hlast, hpk, List.flatMap_append, List.flatMap_cons]
  have hrec : recsAt fetch p = recs := by simp [recsAt, hfp]
  rw [List.flatMap_nil, List.append_nil, hrec, List.map_append, List.nil_append,
    Nat.zero_add]
  have : p - 1 + 1 = p := by omega
  rw [this]

/-- C1 witness: with a fetcher whose first page holds a single record
(0 < 1 < 1000) and `max_pages = 5`, the walker keeps that record's
flattened row and stops after exactly one request. -/
theorem short_page_terminates_witness :
    walk (fun _ => .ok [[("a", JVal.num 1)]]) (fun _ => none) 5 =
      ⟨((List.range' 1 1).flatMap
          (recsAt (fun _ => .ok [[("a", JVal.num 1)]]))).map
            (flattenEntry (fun _ => none)), none, 1⟩ :=
  short_page_terminates (fun _ => .ok [[("a", JVal.num 1)]]) (fun _ => none) 5 1
    (by omega) (by omega)
    (fun _ _ h2 => absurd h2 (by omega))
    ⟨[[("a", JVal.num 1)]], rfl, by decide, by decide⟩

/-- C2: the pagination cap.  If the upstream returns a full page on every
request, the walker fetches exactly `max_pages` pages, keeps the flattened
records of all of them, and reports no error; in particular `max_pages = 1`
stops after one full page. -/
theorem pagination_cap (fetch : Nat → FetchResult)
    (parse : String → Option (List (String × JVal))) (maxPages : Nat)
    (hfull : ∀ q, 1 ≤ q → q ≤ maxPages →
      ∃ recs, fetch q = .ok recs ∧ recs.length = page_size) :
    walk fetch parse maxPages =
      ⟨((List.range' 1 maxPages).flatMap (recsAt fetch)).map
        (flattenEntry parse), none, maxPages⟩ := by
  unfold walk
  have := walkGo_full_steps fetch parse maxPages 0 1 0 []
    (fun i hi => by
      have := hfull (1 + i) (by omega) (by omega)
      exact this)
  rw [Nat.add_zero] at this
  rw [this, walkGo]
  simp

/-- C2 witness: a fetcher that always returns a full page of 1000 records,
run with `max_pages = 1`, is fetched exactly once and stops even though the
page was full. -/
theorem pagination_cap_witness :
    walk (fun _ => .ok (List.replicate page_size [("v", JVal.num 1)]))
        (fun _ => none) 1 =
      ⟨((List.range' 1 1).flatMap
          (recsAt (fun _ => .ok (List.replicate page_size [("v", JVal.num 1)])))).map
            (flattenEntry (fun _ => none)), none, 1⟩ :=
  pagination_cap (fun _ => .ok (List.replicate page_size [("v", JVal.num 1)]))
    (fun _ => none) 1
    (fun _ _ _ => ⟨List.replicate page_size [("v", JVal.num 1)], rfl,
      List.length_replicate page_size _⟩)

/-- C3: failure preserves partial results.  If pages `1..k` succeed (full
pages) and the fetch of page `k+1` fails, the walker stops at page `k+1`
(no further requests), surfaces the failure, and the flattened rows of the
`k` successful pages are kept and are exactly what `pd.DataFrame` is built
from. -/
theorem failure_preserves_partial_rows (fetch : Nat → FetchResult)
    (parse : String → Option (List (String × JVal))) (maxPages k : Nat)
    (e : String) (hk : k + 1 ≤ maxPages)
    (hfull : ∀ q, 1 ≤ q → q ≤ k →
      ∃ recs, fetch q = .ok recs ∧ recs.length = page_size)
    (herr : fetch (k + 1) = .err e) :
    walk fetch parse maxPages =
      ⟨((List.range' 1 k).flatMap (recsAt fetch)).map (flattenEntry parse),
        some e, k + 1⟩ ∧
    sdgPipeline fetch parse maxPages =
      (dfFromRecords (((List.range' 1 k).flatMap (recsAt fetch)).map
        (flattenEntry parse)), some e) := by
  have hwalk : walk fetch parse maxPages =
      ⟨((List.range' 1 k).flatMap (recsAt fetch)).map (flattenEntry parse),
        some e, k + 1⟩ := by
    unfold walk
    have hsplit : maxPages = k + ((maxPages - (k + 1)) + 1) := by omega
    rw [hsplit, walkGo_full_steps fetch parse k ((maxPages - (k + 1)) + 1) 1 0 []
      (fun i hi => by
        have := hfull (1 + i) (by omega) (by omega)
        exact this)]
    have hpk : 1 + k = k + 1 := by omega
    rw [hpk, walkGo, herr, List.nil_append, Nat.zero_add]
  exact ⟨hwalk, by unfold sdgPipeline; rw [hwalk]⟩

/-- C3 witness: one full page followed by a failing fetch on page 2 keeps
the 1000 flattened rows of page 1, reports the error, and issues exactly 2
requests. -/
theorem failure_preserves_partial_rows_witness :
    walk (fun q => if q = 1 then .ok (List.replicate page_size [("v", JVal.num 1)])
        else .err "boom") (fun _ => none) 100 =
      ⟨((List.range' 1 1).flatMap
          (recsAt (fun q => if q = 1
            then .ok (List.replicate page_size [("v", JVal.num 1)])
            else .err "boom"))).map (flattenEntry (fun _ => none)),
        some "boom", 2⟩ ∧
    sdgPipeline (fun q => if q = 1
        then .ok (List.replicate page_size [("v", JVal.num 1)])
        else .err "boom") (fun _ => none) 100 =
      (dfFromRecords (((List.range' 1 1).flatMap
          (recsAt (fun q => if q = 1
            then .ok (List.replicate page_size [("v", JVal.num 1)])
            else .err "boom"))).map (flattenEntry (fun _ => none))),
        some "boom") :=
  failure_preserves_partial_rows
    (fun q => if q = 1 then .ok (List.replicate page_size [("v", JVal.num 1)])
      else .err "boom") (fun _ => none) 100 1 "boom" (by omega)
    (fun q h1 h2 => ⟨List.replicate page_size [("v", JVal.num 1)],
      by rw [show q = 1 by omega]; rfl,
      List.length_replicate page_size _⟩)
    rfl

/-- C4 counterexample: the flattener expands only the `dimensions` and
`attributes` fields.  A record whose field `foo` holds an object is NOT
expanded: no `foo_x` column appears, and the `foo` column survives holding
the nested object. -/
theorem nested_expansion_counterexample :
    flattenEntry (fun _ => none) [("foo", .obj [("x", JVal.num 1)])] =
      [("Indicator", .str ""), ("foo", .obj [("x", JVal.num 1)])] ∧
    List.lookup "foo_x"
      (flattenEntry (fun _ => none) [("foo", .obj [("x", JVal.num 1)])]) = none ∧
    List.lookup "foo"
      (flattenEntry (fun _ => none) [("foo", .obj [("x", JVal.num 1)])]) =
      some (.obj [("x", JVal.num 1)]) :=
  ⟨rfl, rfl, rfl⟩

/-- C4 (amended): exactly the fields named `dimensions` and `attributes`
are expanded when their value is an object, with the fixed singular
prefixes `dimension_` and `attribute_`; every inner key `k` becomes a
column `dimension_k` / `attribute_k` holding the inner value, and the
original field name does not survive (as on the spec's example record);
any other field keeps its object value unexpanded. -/
theorem nested_expansion_amended
    (parse : String → Option (List (String × JVal)))
    (d a : List (String × JVal)) (k : String) (v : JVal)
    (hk1 : k ≠ "dimensions") (hk2 : k ≠ "attributes") :
    flattenField parse "dimensions" (.obj d) =
      d.map (fun p => ("dimension_" ++ p.1, p.2)) ∧
    flattenField parse "attributes" (.obj a) =
      a.map (fun p => ("attribute_" ++ p.1, p.2)) ∧
    flattenField parse k v = [(k, v)] ∧
    flattenEntry parse
      [("dimensions", .obj [("sex", .str "female"), ("age", .str "15-19")])] =
      [("Indicator", .str ""), ("dimension_sex", .str "female"),
        ("dimension_age", .str "15-19")] := by
  refine ⟨rfl, rfl, ?_, rfl⟩
  unfold flattenField
  rw [if_neg hk1, if_neg hk2]

/-- C4 (amended) witness at concrete inputs. -/
theorem nested_expansion_amended_witness :
    flattenField (fun _ => none) "dimensions" (.obj [("sex", .str "female")]) =
      [("dimension_sex", .str "female")] ∧
    flattenField (fun _ => none) "attributes" (.obj [("Units", .str "PC")]) =
      [("attribute_Units", .str "PC")] ∧
    flattenField (fun _ => none) "goal" (.obj [("x", JVal.num 1)]) =
      [("goal", .obj [("x", JVal.num 1)])] ∧
    flattenEntry (fun _ => none)
      [("dimensions", .obj [("sex", .str "female"), ("age", .str "15-19")])] =
      [("Indicator", .str ""), ("dimension_sex", .str "female"),
        ("dimension_age", .str "15-19")] :=
  nested_expansion_amended (fun _ => none) [("sex", .str "female")]
    [("Units", .str "PC")] "goal" (.obj [("x", JVal.num 1)])
    (by decide) (by decide)

/-- C5 counterexample: flattening the already-flat record `{"a": 1}` does
not return it unchanged — an `Indicator` column is unconditionally
injected, so the key set differs. -/
theorem flatten_idempotence_counterexample :
    flattenEntry (fun _ => none) [("a", JVal.num 1)] =
      [("Indicator", .str ""), ("a", JVal.num 1)] ∧
    flattenEntry (fun _ => none) [("a", JVal.num 1)] ≠ [("a", JVal.num 1)] :=
  ⟨rfl, fun h => absurd (congrArg List.length h) (by decide)⟩

/-- C5 (amended): on a record whose `dimensions`/`attributes` values are
neither objects nor strings parsing as JSON objects (in particular on any
already-flat record), flattening keeps every field other than `indicator`
unchanged and in order, prepending the unconditionally-assigned `Indicator`
column (the record's indicator value — element 0 if a nonempty list, the
value itself otherwise, `""` if absent); the lowercase `indicator` key
itself does not survive. -/
theorem flatten_idempotence_amended
    (parse : String → Option (List (String × JVal))) (entry : Entry)
    (h : ∀ p ∈ entry, p.1 = "dimensions" ∨ p.1 = "attributes" →
      (∀ d, p.2 ≠ .obj d) ∧ (∀ s, p.2 = .str s → parse s = none)) :
    flattenEntry parse entry =
      ("Indicator", indicatorValue entry) ::
        entry.filter (fun p => p.1 != "indicator") := by
  unfold flattenEntry
  rw [flatMap_flattenField_self parse _
    (fun p hp => h p (List.mem_of_mem_filter hp))]

/-- C5 (amended) witness: the flat record `{"a": 1}`. -/
theorem flatten_idempotence_amended_witness :
    flattenEntry (fun _ => none) [("a", JVal.num 1)] =
      [("Indicator", .str ""), ("a", JVal.num 1)] :=
  flatten_idempotence_amended (fun _ => none) [("a", JVal.num 1)]
    (fun p hp hdim => by
      rw [List.mem_singleton] at hp
      subst hp
      rcases hdim with h | h <;> exact absurd h (by decide))

/-- C6: JSON-string parse fallback.  For a `dimensions` or `attributes`
field holding a string: if the string parses as a JSON object, the inner
keys are expanded into `dimension_k` / `attribute_k` columns exactly as for
a nested object; if parsing fails (or yields a non-object), the raw string
is copied through unchanged under the original field name.  `flattenField`
is a total function, so no exception escapes the flattening step. -/
theorem string_parse_fallback
    (parse : String → Option (List (String × JVal))) (s : String)
    (inner : List (String × JVal)) :
    (parse s = some inner →
      flattenField parse "dimensions" (.str s) =
        inner.map (fun p => ("dimension_" ++ p.1, p.2)) ∧
      flattenField parse "attributes" (.str s) =
        inner.map (fun p => ("attribute_" ++ p.1, p.2))) ∧
    (parse s = none →
      flattenField parse "dimensions" (.str s) = [("dimensions", .str s)] ∧
      flattenField parse "attributes" (.str s) = [("attributes", .str s)]) := by
  constructor
  · intro h
    constructor <;> simp [flattenField, h]
  · intro h
    constructor <;> simp [flattenField, h]

/-- C6 witness: a parser that accepts exactly the string "good". -/
theorem string_parse_fallback_witness :
    (flattenField (fun t => if t = "good" then some [("sex", .str "female")] else none)
        "dimensions" (.str "good") = [("dimension_sex", .str "female")] ∧
      flattenField (fun t => if t = "good" then some [("sex", .str "female")] else none)
        "attributes" (.str "good") = [("attribute_sex", .str "female")]) ∧
    (flattenField (fun t => if t = "good" then some [("sex", .str "female")] else none)
        "dimensions" (.str "bad") = [("dimensions", .str "bad")] ∧
      flattenField (fun t => if t = "good" then some [("sex", .str "female")] else none)
        "attributes" (.str "bad") = [("attributes", .str "bad")]) :=
  ⟨(string_parse_fallback
      (fun t => if t = "good" then some [("sex", .str "female")] else none)
      "good" [("sex", .str "female")]).1 rfl,
    (string_parse_fallback
      (fun t => if t = "good" then some [("sex", .str "female")] else none)
      "bad" [("sex", .str "female")]).2 rfl⟩

/-- C7: country-code column detection is non-fatal.  On a non-empty table
none of whose columns is a candidate code column, detection yields nothing,
the geographic join is skipped, the non-fatal warning flag is set, and the
rest of the pipeline (coercion, renaming, ordering) still runs, producing
`postProcess df`. -/
theorem country_detection_nonfatal (ref : List RefRow) (df : DataFrame)
    (_hne : df.rows ≠ [])
    (habsent : ∀ c ∈ possible_country_columns, df.cols.contains c = false) :
    detectCountryColumn df.cols = none ∧
    reconcile ref df = (postProcess df, true) := by
  have hdet : detectCountryColumn df.cols = none := by
    unfold detectCountryColumn
    rw [List.find?_eq_none]
    intro c hc
    rw [habsent c hc]
    exact Bool.false_ne_true
  refine ⟨hdet, ?_⟩
  unfold reconcile
  rw [hdet]

/-- C7 witness: a one-row table whose only column is `a`. -/
theorem country_detection_nonfatal_witness :
    detectCountryColumn (DataFrame.mk ["a"] [[("a", JVal.num 1)]]).cols = none ∧
    reconcile [] (DataFrame.mk ["a"] [[("a", JVal.num 1)]]) =
      (postProcess (DataFrame.mk ["a"] [[("a", JVal.num 1)]]), true) :=
  country_detection_nonfatal [] (DataFrame.mk ["a"] [[("a", JVal.num 1)]])
    (by simp) (by decide)

/-- C8: the geographic left join never drops rows.  Every row `r` of the
input table is still present after the merge: if no reference entry matches
its code it survives once with all appended geographic columns null, and
for every matching reference entry it survives extended with that entry's
correct country/region/iso2/iso3 values (lookups assume `r` does not
already use the appended column names, as is the case for flattened SDG
records). -/
theorem left_join_preserves_rows (df : DataFrame) (ref : List RefRow)
    (c : String) (r : Entry) (hr : r ∈ df.rows)
    (hfresh : ∀ n ∈ refColNames c, List.lookup n r = none) :
    (ref.filter (fun t => codeMatches (List.lookup c r) t.m49) = [] →
      r ++ nullRefCols c ∈ (mergeIso df ref c).rows ∧
      List.lookup "Country or Area" (r ++ nullRefCols c) = some .null ∧
      List.lookup "Region Name" (r ++ nullRefCols c) = some .null ∧
      List.lookup "iso2" (r ++ nullRefCols c) = some .null ∧
      List.lookup "iso3" (r ++ nullRefCols c) = some .null) ∧
    (∀ t ∈ ref.filter (fun t => codeMatches (List.lookup c r) t.m49),
      r ++ refCols c t ∈ (mergeIso df ref c).rows ∧
      List.lookup "Country or Area" (r ++ refCols c t) =
        some (.str t.countryOrArea) ∧
      List.lookup "Region Name" (r ++ refCols c t) = some (.str t.regionName) ∧
      List.lookup "iso2" (r ++ refCols c t) = some (.str t.iso2) ∧
      List.lookup "iso3" (r ++ refCols c t) = some (.str t.iso3)) := by
  have hCoA : "Country or Area" ∈ refColNames c := by simp [refColNames]
  have hRN : "Region Name" ∈ refColNames c := by simp [refColNames]
  have hi2 : "iso2" ∈ refColNames c := by simp [refColNames]
  have hi3 : "iso3" ∈ refColNames c := by simp [refColNames]
  constructor
  · intro hms
    refine ⟨?_, ?_, ?_, ?_, ?_⟩
    · unfold mergeIso
      refine List.mem_flatMap.mpr ⟨r, hr, ?_⟩
      simp only [hms, List.isEmpty_nil, if_pos rfl]
      exact List.mem_singleton.mpr rfl
    · rw [List.lookup_append, hfresh _ hCoA]
      simp [nullRefCols, List.lookup_cons]
    · rw [List.lookup_append, hfresh _ hRN]
      simp [nullRefCols, List.lookup_cons]
    · rw [List.lookup_append, hfresh _ hi2]
      simp [nullRefCols, List.lookup_cons]
    · rw [List.lookup_append, hfresh _ hi3]
      simp [nullRefCols, List.lookup_cons]
  · intro t ht
    refine ⟨?_, ?_, ?_, ?_, ?_⟩
    · unfold mergeIso
      refine List.mem_flatMap.mpr ⟨r, hr, ?_⟩
      have hne : (ref.filter
          (fun t => codeMatches (List.lookup c r) t.m49)).isEmpty = false := by
        rw [List.isEmpty_eq_false_iff_exists_mem]
        exact ⟨t, ht⟩
      simp only [hne, Bool.false_eq_true, if_false]
      exact List.mem_map.mpr ⟨t, ht, rfl⟩
    · rw [List.lookup_append, hfresh _ hCoA]
      simp [refCols, List.lookup_cons]
    · rw [List.lookup_append, hfresh _ hRN]
      simp [refCols, List.lookup_cons]
    · rw [List.lookup_append, hfresh _ hi2]
      simp [refCols, List.lookup_cons]
    · rw [List.lookup_append, hfresh _ hi3]
      simp [refCols, List.lookup_cons]

/-- C8 witness: a two-row table joined on `geoAreaCode` against a one-entry
reference table — the matching row gains the entry's fields, the
unknown-code row survives with nulls. -/
theorem left_join_preserves_rows_witness :
    ([RefRow.mk "Algeria" "Africa" "Northern Africa" "" "DZ" "DZA" "12"].filter
        (fun t => codeMatches
          (List.lookup "geoAreaCode" [("geoAreaCode", JVal.str "999")]) t.m49) =
        [] →
      [("geoAreaCode", JVal.str "999")] ++ nullRefCols "geoAreaCode" ∈
        (mergeIso
          (DataFrame.mk ["geoAreaCode"]
            [[("geoAreaCode", JVal.str "12")], [("geoAreaCode", JVal.str "999")]])
          [RefRow.mk "Algeria" "Africa" "Northern Africa" "" "DZ" "DZA" "12"]
          "geoAreaCode").rows ∧
      List.lookup "Country or Area"
        ([("geoAreaCode", JVal.str "999")] ++ nullRefCols "geoAreaCode") =
        some .null ∧
      List.lookup "Region Name"
        ([("geoAreaCode", JVal.str "999")] ++ nullRefCols "geoAreaCode") =
        some .null ∧
      List.lookup "iso2"
        ([("geoAreaCode", JVal.str "999")] ++ nullRefCols "geoAreaCode") =
        some .null ∧
      List.lookup "iso3"
        ([("geoAreaCode", JVal.str "999")] ++ nullRefCols "geoAreaCode") =
        some .null) ∧
    (∀ t ∈ [RefRow.mk "Algeria" "Africa" "Northern Africa" "" "DZ" "DZA" "12"].filter
        (fun t => codeMatches
          (List.lookup "geoAreaCode" [("geoAreaCode", JVal.str "999")]) t.m49),
      [("geoAreaCode", JVal.str "999")] ++ refCols "geoAreaCode" t ∈
        (mergeIso
          (DataFrame.mk ["geoAreaCode"]
            [[("geoAreaCode", JVal.str "12")], [("geoAreaCode", JVal.str "999")]])
          [RefRow.mk "Algeria" "Africa" "Northern Africa" "" "DZ" "DZA" "12"]
          "geoAreaCode").rows ∧
      List.lookup "Country or Area"
        ([("geoAreaCode", JVal.str "999")] ++ refCols "geoAreaCode" t) =
        some (.str t.countryOrArea) ∧
      List.lookup "Region Name"
        ([("geoAreaCode", JVal.str "999")] ++ refCols "geoAreaCode" t) =
        some (.str t.regionName) ∧
      List.lookup "iso2"
        ([("geoAreaCode", JVal.str "999")] ++ refCols "geoAreaCode" t) =
        some (.str t.iso2) ∧
      List.lookup "iso3"
        ([("geoAreaCode", JVal.str "999")] ++ refCols "geoAreaCode" t) =
        some (.str t.iso3)) :=
  left_join_preserves_rows
    (DataFrame.mk ["geoAreaCode"]
      [[("geoAreaCode", JVal.str "12")], [("geoAreaCode", JVal.str "999")]])
    [RefRow.mk "Algeria" "Africa" "Northern Africa" "" "DZ" "DZA" "12"]
    "geoAreaCode" [("geoAreaCode", JVal.str "999")]
    (by simp)
    (by
      intro n hn
      have he : refColNames "geoAreaCode" = ["Country or Area", "Region Name",
        "Sub-region Name", "Intermediate Region Name", "iso2", "iso3", "m49"] := rfl
      rw [he] at hn
      fin_cases hn <;> rfl)

/-- C9: deterministic parameter serialization.  Both builders are pure
functions of the selection: two builds from equal selections yield the
identical SDG URL string and the identical ACLED parameter mapping (fixed
separators, selection order preserved), so equal selections give equal
cache keys. -/
theorem parameter_serialization_deterministic
    (ind ind' cty cty' : List String) (lo lo' hi hi' : Nat)
    (ac ac' ar ar' ae ae' : List String) (alo alo' ahi ahi' n n' : Nat)
    (h1 : ind = ind') (h2 : cty = cty') (h3 : lo = lo') (h4 : hi = hi')
    (h5 : ac = ac') (h6 : ar = ar') (h7 : ae = ae') (h8 : alo = alo')
    (h9 : ahi = ahi') (h10 : n = n') :
    data_url ind cty lo hi = data_url ind' cty' lo' hi' ∧
    acledParameters ac ar ae alo ahi n =
      acledParameters ac' ar' ae' alo' ahi' n' := by
  subst h1 h2 h3 h4 h5 h6 h7 h8 h9 h10
  exact ⟨rfl, rfl⟩

/-- C9 witness: a concrete selection serialized twice. -/
theorem parameter_serialization_deterministic_witness :
    data_url ["1.1.1"] ["12"] 1963 1964 = data_url ["1.1.1"] ["12"] 1963 1964 ∧
    acledParameters ["Algeria"] [] ["Attack"] 1990 2000 5000 =
      acledParameters ["Algeria"] [] ["Attack"] 1990 2000 5000 :=
  parameter_serialization_deterministic ["1.1.1"] ["1.1.1"] ["12"] ["12"]
    1963 1963 1964 1964 ["Algeria"] ["Algeria"] [] [] ["Attack"] ["Attack"]
    1990 1990 2000 2000 5000 5000
    rfl rfl rfl rfl rfl rfl rfl rfl rfl rfl

/-- C10: the ACLED parameter mapping carries a `limit` key exactly when the
selected number of rows is positive, and then its value is that number;
with `num_rows = 0` no `limit` parameter is sent. -/
theorem limit_param_iff (cs rs es : List String) (lo hi n : Nat) :
    List.lookup "limit" (acledParameters cs rs es lo hi n) =
      if n > 0 then some (.nat n) else none := by
  unfold acledParameters
  split_ifs <;> rfl
